import Mathlib

/-!
# Finance-Clarity: verification of the Financial Reasoning Engine

Shallow embedding of the conversational finance engine in `ai-chatbot.js`
(plus the data-provider shapes of the DataManager it consumes).  JavaScript
numbers are modelled as exact rationals (`ℚ`); all claims settled here are
about comparisons and small concrete values where binary floating point and
exact rational arithmetic agree.  JavaScript strings are modelled as Lean
`String`s (lists of characters).  Methods that read or write fields of the
chatbot singleton are modelled by explicit state passing over `BotState`.
-/

namespace FinanceClarity

/-! ## JavaScript primitives -/

/-- `Number.prototype.toFixed(1)` read back as a number: round to one decimal
place (ties away from zero for the non-negative values that occur here). -/
def jsToFixed1 (q : ℚ) : ℚ := ((⌊q * 10 + 1/2⌋ : ℤ) : ℚ) / 10

/-- `Number.prototype.toFixed(2)` read back via `parseFloat`: round to two
decimal places. -/
def jsToFixed2 (q : ℚ) : ℚ := ((⌊q * 100 + 1/2⌋ : ℤ) : ℚ) / 100

/-- JavaScript `a || b` on numbers: `a` when truthy (nonzero), else `b`;
an absent (`undefined`) field is modelled by `none`. -/
def jsNumOr (o : Option ℚ) (d : ℚ) : ℚ :=
  match o with
  | some a => if a = 0 then d else a
  | none => d

/-- Truthiness of a possibly-`undefined` JavaScript number. -/
def truthyQ (o : Option ℚ) : Bool :=
  match o with
  | some a => decide (a ≠ 0)
  | none => false

/-- ASCII lower-casing, as `String.prototype.toLowerCase` on the ASCII
strings compared by this program. -/
def jsToLower (s : String) : String := String.mk (s.data.map Char.toLower)

/-- Case-sensitive character equality. -/
def eqCS (a b : Char) : Bool := a == b

/-- Case-insensitive character equality (the `i` regex flag). -/
def eqCI (a b : Char) : Bool := a.toLower == b.toLower

/-- Is `pat` an initial segment of `l`, comparing characters with `eq`? -/
def leadMatch (eq : Char → Char → Bool) : List Char → List Char → Bool
  | _, [] => true
  | [], _ :: _ => false
  | a :: as, b :: bs => eq a b && leadMatch eq as bs

/-- Does `pat` occur anywhere in `l` (`String.prototype.includes` when
`eq = eqCS`)? -/
def hasSub (eq : Char → Char → Bool) (pat : List Char) : List Char → Bool
  | [] => leadMatch eq [] pat
  | c :: cs => leadMatch eq (c :: cs) pat || hasSub eq pat cs

/-- `String.prototype.includes` (case-sensitive substring test). -/
def jsIncludes (s pat : String) : Bool := hasSub eqCS pat.data s.data

/-- Global regex replacement of the literal pattern `pat` by `rep`
(`String.prototype.replace(/pat/g ...)`); the replacement text is not
re-scanned.  `fuel` is instantiated with the input length, which bounds the
number of scanning steps. -/
def replF (eq : Char → Char → Bool) (pat rep : List Char) : ℕ → List Char → List Char
  | _, [] => []
  | 0, l => l
  | f + 1, c :: cs =>
    if leadMatch eq (c :: cs) pat then
      rep ++ replF eq pat rep f (List.drop (pat.length - 1) cs)
    else c :: replF eq pat rep f cs

/-- `s.replace(new RegExp(pat, flags), rep)` for a literal pattern, with
`flags` either `"g"` (`ci = false`) or `"gi"` (`ci = true`). -/
def jsReplaceAll (ci : Bool) (s pat rep : String) : String :=
  String.mk (replF (if ci then eqCI else eqCS) pat.data rep.data s.data.length s.data)

/-- JavaScript whitespace recognised by `String.prototype.trim` (the subset
occurring in the strings of this program). -/
def isWS (c : Char) : Bool :=
  c == ' ' || c == Char.ofNat 9 || c == Char.ofNat 10 || c == Char.ofNat 13 ||
  c == Char.ofNat 11 || c == Char.ofNat 12

/-- `String.prototype.trim` on the character list. -/
def trimList (l : List Char) : List Char :=
  ((l.dropWhile isWS).reverse.dropWhile isWS).reverse

/-- `String.prototype.trim`. -/
def jsTrim (s : String) : String := String.mk (trimList s.data)

/-! ## Snapshot Builder health metrics (`buildFinancialContext`,
`ai-chatbot.js` lines 800–825) -/

/-- `const expenseRatio = income > 0 ? ((expenses / income) * 100) : 0`. -/
def expenseRatioOf (income expenses : ℚ) : ℚ :=
  if income > 0 then expenses / income * 100 else 0

/-- `const savingsRate = income > 0 ? (((income - expenses) / income) * 100) : 0`;
`parseFloat` of a finite number is the identity, so `savingsRateNum`
coincides with this value. -/
def savingsRateOf (income expenses : ℚ) : ℚ :=
  if income > 0 then (income - expenses) / income * 100 else 0

/-- The `financialHealth` if-chain of `buildFinancialContext`, transcribed
branch for branch (including the penultimate `expenseRatio >= 70 ||
savingsRateNum < 10` guard and the trailing Moderate else). -/
def financialHealthOf (income expenses : ℚ) : String :=
  if expenses > income then "Needs Attention"
  else if expenseRatioOf income expenses > 85 then "Needs Attention"
  else if expenseRatioOf income expenses < 50 ∧ savingsRateOf income expenses > 20 then "Healthy"
  else if expenseRatioOf income expenses < 70 ∧ savingsRateOf income expenses > 10 then "Moderate"
  else if expenseRatioOf income expenses ≥ 70 ∨ savingsRateOf income expenses < 10 then "Needs Attention"
  else "Moderate"

/-- Modelled from the spec: the health-classification precedence exactly as
the specification states it (overspending, then ratio > 85%, then the
Healthy and Moderate tests, "otherwise Needs Attention"), to be compared
with the source transcription `financialHealthOf`. -/
def specHealthClassification (income expenses : ℚ) : String :=
  if expenses > income then "Needs Attention"
  else if expenseRatioOf income expenses > 85 then "Needs Attention"
  else if expenseRatioOf income expenses < 50 ∧ savingsRateOf income expenses > 20 then "Healthy"
  else if expenseRatioOf income expenses < 70 ∧ savingsRateOf income expenses > 10 then "Moderate"
  else "Needs Attention"

/-! ## Scenario Simulator (`simulateScenario`, `ai-chatbot.js` lines 4454–4499) -/

/-- The per-category flexible-spending object returned by
`DataManager.getFlexibleSpending()` (keys `food`, `travel`, `shopping`,
`miscellaneous`). -/
structure FlexMap where
  food : ℚ
  travel : ℚ
  shopping : ℚ
  miscellaneous : ℚ
deriving DecidableEq, Repr

/-- `DataManager.getTotalFlexibleSpending()`: the sum of the four category
values. -/
def flexTotal (m : FlexMap) : ℚ := m.food + m.travel + m.shopping + m.miscellaneous

/-- The runtime shape of the `flexibleSpending` field of a context object.
`getUserFinancialContext` stores the numeric total there (the per-category
object lives in `flexibleData`), while `simulateScenario` indexes
`flexibleSpending` as if it were the per-category object; the union type
records both possible shapes so that property access can be modelled
faithfully. -/
inductive FlexVal where
  | num : ℚ → FlexVal
  | obj : FlexMap → FlexVal
deriving DecidableEq, Repr

/-- JavaScript property access `v[k]`: on a primitive number it yields
`undefined` (`none`); on the category object it reads the named key. -/
def fvIndex (v : FlexVal) (k : String) : Option ℚ :=
  match v with
  | .num _ => none
  | .obj m =>
    if k = "food" then some m.food
    else if k = "travel" then some m.travel
    else if k = "shopping" then some m.shopping
    else if k = "miscellaneous" then some m.miscellaneous
    else none

/-- JavaScript truthiness of the `flexibleSpending` field itself: a number
is truthy iff nonzero, an object is always truthy. -/
def fvTruthy (v : FlexVal) : Bool :=
  match v with
  | .num q => decide (q ≠ 0)
  | .obj _ => true

/-- Assignment `v[k] = x`: silently a no-op on a primitive number. -/
def fvSet (v : FlexVal) (k : String) (x : ℚ) : FlexVal :=
  match v with
  | .num q => .num q
  | .obj m =>
    if k = "food" then .obj { m with food := x }
    else if k = "travel" then .obj { m with travel := x }
    else if k = "shopping" then .obj { m with shopping := x }
    else if k = "miscellaneous" then .obj { m with miscellaneous := x }
    else .obj m

/-- `Object.values(v || {}).reduce((sum, val) => sum + (val || 0), 0)`:
on the category object, the sum of its values; `Object.values` of a
primitive number is empty. -/
def fvValuesSum (v : FlexVal) : ℚ :=
  match v with
  | .num _ => 0
  | .obj m => m.food + m.travel + m.shopping + m.miscellaneous

/-- The financial context object built by `getUserFinancialContext` and
consumed by `simulateScenario`.  The list-valued fields
(`incomeSources`, `fixedExpenseList`, `history`, `monthlyData`) are inert
under every operation modelled here (they are deep-copied unchanged), so
they are omitted.  `savingsRate` stores the value of the string field that
`simulateScenario` writes (absent, i.e. numerically irrelevant, on freshly
built contexts). -/
structure Ctx where
  income : ℚ
  expenses : ℚ
  savings : ℚ
  fixedExpenses : ℚ
  flexibleSpending : FlexVal
  flexibleData : FlexMap
  savingsRate : ℚ
deriving DecidableEq, Repr

/-- The context shape produced by `getUserFinancialContext`
(`ai-chatbot.js` lines 364–414): `flexibleSpending` is the numeric total
`getTotalFlexibleSpending()`, and the per-category object sits in
`flexibleData`.  (`enhanceContextWithMemory` spreads this object, keeping
both fields as they are.) -/
def mkUserContext (income expenses fixedExpenses : ℚ) (flex : FlexMap) : Ctx :=
  ⟨income, expenses, income - expenses, fixedExpenses, .num (flexTotal flex), flex, 0⟩

/-- The scenario descriptor produced by `extractSimulationParams`; absent
fields are `none`. -/
structure Params where
  type : Option String
  amount : Option ℚ
  percentage : Option ℚ
  direction : Option String
  category : Option String
deriving DecidableEq, Repr

/-- `(percentage ? (base * percentage / 100) : 0)`. -/
def pctPart (percentage : Option ℚ) (base : ℚ) : ℚ :=
  match percentage with
  | some pc => if pc = 0 then 0 else base * pc / 100
  | none => 0

/-- `categoryMap[category]` inside the `category_change` branch. -/
def categoryKeyOf (category : String) : Option String :=
  if category = "Food & Dining" then some "food"
  else if category = "Travel & Transport" then some "travel"
  else if category = "Shopping" then some "shopping"
  else if category = "Miscellaneous" then some "miscellaneous"
  else none

/-- The three `if (type === ...)` delta branches of `simulateScenario`
applied to the deep copy, before the final savings recomputation. -/
def simApplyDelta (s : Ctx) (p : Params) : Ctx :=
  let isIncrease := p.direction = some "increase"
  if p.type = some "income_change" then
    let change := jsNumOr p.amount (pctPart p.percentage s.income)
    { s with income := if isIncrease then s.income + change else max 0 (s.income - change) }
  else if p.type = some "expense_change" then
    let change := jsNumOr p.amount (pctPart p.percentage s.expenses)
    { s with expenses := if isIncrease then s.expenses + change else max 0 (s.expenses - change) }
  else if p.type = some "category_change" ∧ p.category.isSome then
    match p.category with
    | none => s
    | some cat =>
      match categoryKeyOf cat with
      | none => s
      | some catKey =>
        if fvTruthy s.flexibleSpending ∧ truthyQ (fvIndex s.flexibleSpending catKey) then
          let currentAmount := (fvIndex s.flexibleSpending catKey).getD 0
          let change := jsNumOr p.amount (pctPart p.percentage currentAmount)
          let newFlex := fvSet s.flexibleSpending catKey
            (if isIncrease then currentAmount + change else max 0 (currentAmount - change))
          { s with flexibleSpending := newFlex,
                   expenses := s.fixedExpenses + fvValuesSum newFlex }
        else s
  else s

/-- `simulateScenario(baseContext, params)` (`ai-chatbot.js` lines
4454–4499) on non-null inputs.  The function deep-copies its input and
works only on the copy; in this pure embedding the copy is the returned
value.  The final `savingsRate` is the number denoted by the string the
source stores (`(...).toFixed(1)` or the literal string zero). -/
def simulateScenario (s : Ctx) (p : Params) : Ctx :=
  let s1 := simApplyDelta s p
  let savings := s1.income - s1.expenses
  { s1 with savings := savings,
            savingsRate := if s1.income > 0 then jsToFixed1 (savings / s1.income * 100) else 0 }

/-! ## Engine state and the conversation loop -/

/-- The mutable fields of the chatbot singleton that the modelled methods
read or write: the in-flight guard, the rate-limiter pair, and the chat
history (role, message). -/
structure BotState where
  isProcessing : Bool
  rateLimitCount : ℕ
  rateLimitReset : ℕ
  chatHistory : List (String × String)
deriving DecidableEq, Repr

/-- `checkRateLimit()` (`ai-chatbot.js` lines 420–433) with `Date.now()`
passed explicitly: lazily reset the window when `now > rateLimitReset`,
refuse at ten messages, otherwise count the message. -/
def checkRateLimit (now : ℕ) (st : BotState) : Bool × BotState :=
  let st := if now > st.rateLimitReset
    then { st with rateLimitCount := 0, rateLimitReset := now + 60000 }
    else st
  if st.rateLimitCount ≥ 10 then (false, st)
  else (true, { st with rateLimitCount := st.rateLimitCount + 1 })

/-- `simulateScenario` as the state-passing form of the method call
`this.simulateScenario(...)`: the method body references no field of the
singleton (`this`) at all, so the threaded state is returned untouched and
the result depends only on the two arguments. -/
def simulateScenarioS (st : BotState) (s : Ctx) (p : Params) : BotState × Ctx :=
  (st, simulateScenario s p)

/-- The possible resolutions of one `processMessage` turn, one constructor
per `return` site (`ai-chatbot.js` lines 440–527): empty input, the
"still processing" rejection, the rate-limit throttling response, the
missing-data reply, the answer produced by the response pipeline, and the
outer `catch` error reply. -/
inductive Turn where
  | invalidInput : Turn
  | busy : Turn
  | throttled : Turn
  | noData : Turn
  | answered : String → Turn
  | failed : Turn
deriving DecidableEq, Repr

/-- `this.chatHistory.push(...)` of the user/assistant pair followed by the
keep-last-20 slice. -/
def pushHistory (h : List (String × String)) (userMsg resp : String) : List (String × String) :=
  let h := h ++ [("user", userMsg), ("assistant", resp)]
  if h.length > 20 then h.drop (h.length - 20) else h

/-- `processMessage(userMessage)` (`ai-chatbot.js` lines 440–527).
`now` stands for `Date.now()`; `ctxOk` for whether
`getUserFinancialContext()` returned a context; `bodyThrows` for whether
the response pipeline inside the `try` raised (caught by the outer
`catch`); `resp` for the response string the pipeline produced.  The
`finally` clause clears `isProcessing` on every path that set it. -/
def processMessage (now : ℕ) (msg : String) (ctxOk bodyThrows : Bool) (resp : String)
    (st : BotState) : BotState × Turn :=
  if jsTrim msg = "" then (st, .invalidInput)
  else if st.isProcessing then (st, .busy)
  else
    let (ok, st1) := checkRateLimit now st
    if !ok then (st1, .throttled)
    else
      -- this.isProcessing = true; try { ... } finally { this.isProcessing = false; }
      if !ctxOk then ({ st1 with isProcessing := false }, .noData)
      else if bodyThrows then ({ st1 with isProcessing := false }, .failed)
      else ({ st1 with isProcessing := false,
                       chatHistory := pushHistory st1.chatHistory (jsTrim msg) resp },
            .answered resp)

/-- A sequence of `processMessage` turns at the given instants, threading
the state of the singleton. -/
def runMessages (msg resp : String) (ctxOk bodyThrows : Bool) :
    List ℕ → BotState → BotState × List Turn
  | [], st => (st, [])
  | t :: ts, st =>
    let r := processMessage t msg ctxOk bodyThrows resp st
    let rest := runMessages msg resp ctxOk bodyThrows ts r.1
    (rest.1, r.2 :: rest.2)

/-- Turns accepted by the rate limiter and fully processed. -/
def isAnswered (t : Turn) : Bool :=
  match t with
  | .answered _ => true
  | _ => false

/-- Number of accepted turns in a run. -/
def acceptedCount (l : List Turn) : ℕ := (l.filter isAnswered).length

/-! ## Goal Planner (`createFinancialGoal`, `ai-chatbot.js` lines 3824–3874) -/

/-- A stored financial goal.  `id` and `createdAt` both come from
`Date.now()` at creation. -/
structure Goal where
  id : ℕ
  name : String
  targetAmount : ℚ
  durationMonths : ℤ
  monthlyRequirement : ℚ
  createdAt : ℕ
  amountSaved : ℚ
  remainingAmount : ℚ
  completionPercentage : ℚ
  status : String
deriving DecidableEq, Repr

/-- `parseInt(durationMonths)` on a positive finite number: truncation of
its decimal representation, i.e. the floor for the positive values the
guard admits. -/
def jsParseIntPos (q : ℚ) : ℤ := ⌊q⌋

/-- The duplicate test of `createFinancialGoal`: an existing goal whose
lower-cased name equals the lower-cased trimmed new name and whose status
is `active` or `behind`. -/
def goalDupPred (trimmedName : String) (g : Goal) : Bool :=
  jsToLower g.name == jsToLower trimmedName &&
    (g.status == "active" || g.status == "behind")

/-- The goal object built in the success branch of `createFinancialGoal`:
`monthlyRequirement` is `parseFloat((targetAmount / durationMonths).toFixed(2))`. -/
def mkNewGoal (now : ℕ) (name : String) (targetAmount durationMonths : ℚ) : Goal :=
  ⟨now, jsTrim name, targetAmount, jsParseIntPos durationMonths,
   jsToFixed2 (targetAmount / durationMonths), now, 0, targetAmount, 0, "active"⟩

/-- `createFinancialGoal(name, targetAmount, durationMonths)`
(`ai-chatbot.js` lines 3824–3874), with `Date.now()` passed as `now` and
the goal collection of the singleton passed and returned explicitly.
Returns the created goal (or `none` on rejection) together with the
resulting goal collection.  The best-effort `saveFinancialGoals()` /
page-refresh calls touch no modelled state. -/
def createFinancialGoal (now : ℕ) (name : String) (targetAmount durationMonths : ℚ)
    (goals : List Goal) : Option Goal × List Goal :=
  -- `if (!name || !targetAmount || !durationMonths || targetAmount <= 0 || durationMonths <= 0)`
  if name = "" ∨ targetAmount ≤ 0 ∨ durationMonths ≤ 0 then (none, goals)
  else
    match goals.find? (goalDupPred (jsTrim name)) with
    | some _ => (none, goals)
    | none =>
      let goal := mkNewGoal now name targetAmount durationMonths
      (some goal, goals ++ [goal])

/-! ## Safety Filter (`applyAISafetyFilters`, `ai-chatbot.js` lines
231–256, and `applySafeResponseFramework`, lines 3281–3315) -/

/-- The investment-advice keywords removed by `applyAISafetyFilters`. -/
def investmentKeywords : List String :=
  ["invest in", "buy stock", "purchase shares", "trading", "crypto", "bitcoin"]

/-- One iteration of the keyword loop: replace the keyword (regexp with the
`gi` flags) when the lower-cased current text contains it. -/
def filterKeyword (l : List Char) (kw : String) : List Char :=
  if hasSub eqCS kw.data (l.map Char.toLower) then
    replF eqCI kw.data ("[investment advice removed]".data) l.length l
  else l

/-- The length cap: over 2000 characters, keep the first 2000 and append an ellipsis. -/
def jsTruncate2000 (l : List Char) : List Char :=
  if l.length > 2000 then l.take 2000 ++ ("...".data) else l

/-- `applyAISafetyFilters(response)` (`ai-chatbot.js` lines 231–256):
keyword redaction, soft-language substitutions (case-sensitive `g`
regexps), length cap, trim.  The non-string guard collapses to the empty
string in this `String`-typed embedding. -/
def applyAISafetyFilters (response : String) : String :=
  if response = "" then ""
  else
    let l0 := investmentKeywords.foldl filterKeyword response.data
    let l1 := replF eqCS ("you must".data) ("you may consider".data) l0.length l0
    let l2 := replF eqCS ("you should definitely".data) ("you might consider".data) l1.length l1
    let l3 := replF eqCS ("guaranteed".data) ("potentially".data) l2.length l2
    let l4 := replF eqCS ("will definitely".data) ("may".data) l3.length l3
    String.mk (trimList (jsTruncate2000 l4))

/-- `response.replace(/invest[^.]*\x2fgi, rep)`: at each (case-insensitive)
occurrence of `invest`, the greedy `[^.]*` consumes up to the next period
or the end of the string; scanning resumes after the consumed text. -/
def replInvestF (rep : List Char) : ℕ → List Char → List Char
  | _, [] => []
  | 0, l => l
  | f + 1, c :: cs =>
    if leadMatch eqCI (c :: cs) ("invest".data) then
      rep ++ replInvestF rep f (List.dropWhile (fun d => !(d == Char.ofNat 46)) (List.drop 5 cs))
    else c :: replInvestF rep f cs

/-- `applySafeResponseFramework(response)` (`ai-chatbot.js` lines
3281–3315): run `applyAISafetyFilters`, then the case-insensitive
soft-language substitutions, the investment-phrase redaction, and the
guarantee/certainty softeners. -/
def applySafeResponseFramework (response : String) : String :=
  if response = "" then "I can help you understand your finances. Please ask me a question."
  else
    let a := (applyAISafetyFilters response).data
    let b1 := replF eqCI ("You must".data) ("You may want to".data) a.length a
    let b2 := replF eqCI ("You should".data) ("Based on your data, you may want to".data) b1.length b1
    let b3 := replF eqCI ("You need to".data) ("This could help".data) b2.length b2
    let b4 := replF eqCI ("You have to".data) ("Consider".data) b3.length b3
    let b5 := replF eqCI ("Always".data) ("You may want to consider".data) b4.length b4
    let b6 := replF eqCI ("Never".data) ("It may be helpful to avoid".data) b5.length b5
    let b7 := replF eqCI ("guaranteed".data) ("potentially".data) b6.length b6
    let b8 := replF eqCI ("will definitely".data) ("may".data) b7.length b7
    let c := if hasSub eqCS ("invest".data) b8 || hasSub eqCS ("investment".data) b8 then
        replInvestF ("consult with a financial advisor about investments".data) b8.length b8
      else b8
    let d1 := replF eqCI ("guarantee".data) ("potential".data) c.length c
    let d2 := replF eqCI ("certain".data) ("likely".data) d1.length d1
    String.mk d2

/-! ## Intent Classifier (`detectIntent`, `ai-chatbot.js` lines 629–782) -/

/-- An intent tag with its confidence score. -/
structure Intent where
  type : String
  confidence : ℚ
deriving DecidableEq, Repr

/-- The short-term conversation context consulted by the classifier. -/
structure ConvCtx where
  lastTopic : Option String
deriving DecidableEq, Repr

/-- `detectIntent(question, convContext)` (`ai-chatbot.js` lines 629–782):
lower-case the question, evaluate the rule chain in source order (first
match wins), then apply the context-aware confidence boost.  The non-string
guard collapses to the empty string. -/
def detectIntent (question : String) (conv : ConvCtx) : Intent :=
  if question = "" then ⟨"GENERAL_ADVICE", 0.5⟩
  else
    let q := jsToLower question
    let inc := fun (pat : String) => jsIncludes q pat
    let base : Intent :=
      if (inc "save more" || inc "increase savings" || inc "improve savings" ||
          inc "how can i save" || inc "ways to save") &&
         (inc "how" || inc "what" || inc "suggest") then ⟨"SAVE_MORE", 0.9⟩
      else if (inc "reduce" || inc "cut" || inc "lower" || inc "decrease") &&
              (inc "expense" || inc "spending" || inc "cost") then ⟨"CUT_EXPENSES", 0.85⟩
      else if (inc "highest" || inc "largest" || inc "biggest" || inc "top") &&
              (inc "expense" || inc "spending" || inc "category") then ⟨"HIGHEST_EXPENSE", 0.9⟩
      else if inc "category" || inc "spending by" || inc "breakdown" ||
              (inc "how much" && (inc "food" || inc "travel" || inc "shopping")) then
        ⟨"CATEGORY_ANALYSIS", 0.85⟩
      else if inc "monthly report" || inc "monthly summary" || inc "give me my report" ||
              inc "generate report" || inc "month overview" then ⟨"MONTHLY_SUMMARY", 0.95⟩
      else if (inc "saving" || inc "save") &&
              (inc "how much" || inc "amount" || inc "rate") then ⟨"SAVINGS_ADVICE", 0.85⟩
      else if (inc "expense" || inc "spending") &&
              (inc "analyze" || inc "where" || inc "breakdown") then ⟨"EXPENSE_ANALYSIS", 0.8⟩
      else if (inc "budget" || inc "optimize" || inc "improve") &&
              (inc "how" || inc "suggest") then ⟨"BUDGET_OPTIMIZATION", 0.8⟩
      else if inc "trend" || inc "compare" || inc "change" ||
              (inc "this month" && (inc "last month" || inc "previous")) then
        ⟨"TREND_ANALYSIS", 0.85⟩
      else if inc "overspend" || inc "where am i" ||
              (inc "am i" && (inc "spending too much" || inc "over budget")) then
        ⟨"OVERSpending_CHECK", 0.9⟩
      else if (inc "saving" || inc "save") &&
              (inc "analysis" || inc "analyze" || inc "breakdown" ||
               inc "how am i doing" || inc "savings health") then ⟨"SAVINGS_ANALYSIS", 0.88⟩
      else if (inc "risk" || inc "risky" || inc "safe" || inc "danger") &&
              (inc "spending" || inc "expense" || inc "budget") then ⟨"SPENDING_RISK", 0.87⟩
      else if (inc "budget" || inc "financial health" || inc "how am i") &&
              (inc "health" || inc "status" || inc "doing" || inc "good") then
        ⟨"BUDGET_HEALTH", 0.86⟩
      else if (inc "reduce" || inc "cut" || inc "lower" || inc "minimize") &&
              (inc "cost" || inc "spending" || inc "expense") &&
              !(inc "category") then ⟨"COST_REDUCTION", 0.85⟩
      else if (inc "financial health" || inc "health score" || inc "how am i doing") &&
              (inc "what" || inc "score" || inc "how") then ⟨"FINANCIAL_HEALTH_SCORE", 0.92⟩
      else if (inc "predict" || inc "forecast" || inc "will i" || inc "end of month") &&
              (inc "spending" || inc "budget" || inc "saving") then ⟨"PREDICTIVE_INSIGHTS", 0.88⟩
      else if (inc "what should i" || inc "specific advice" || inc "actionable") &&
              (inc "do" || inc "reduce" || inc "improve") then ⟨"ACTIONABLE_ADVICE", 0.85⟩
      else if (inc "create" || inc "set" || inc "add" || inc "new") &&
              (inc "goal" || inc "target" || (inc "save" && inc "for")) then ⟨"CREATE_GOAL", 0.9⟩
      else if (inc "goal" || inc "target") &&
              (inc "progress" || inc "status" || inc "how is" || inc "how am i") then
        ⟨"GOAL_PROGRESS", 0.88⟩
      else if (inc "can i" || inc "will i" || inc "reach" || inc "achieve") &&
              (inc "goal" || inc "target") then ⟨"GOAL_ACHIEVABILITY", 0.87⟩
      else if (inc "adjust" || inc "modify" || inc "change" || inc "update") &&
              (inc "goal" || inc "target" || inc "plan") then ⟨"ADJUST_GOAL", 0.86⟩
      else ⟨"GENERAL_ADVICE", 0.5⟩
    -- context-aware intent refinement
    if conv.lastTopic.isSome then
      if base.confidence < 0.7 ∧ (inc "what" || inc "how" || inc "which") then
        if conv.lastTopic = some "savings" ∧ (inc "save" || inc "reduce") then
          ⟨base.type, min 0.9 (base.confidence + 0.2)⟩
        else base
      else base
    else base

/-! ## Theorems -/

theorem savingsRate_eq_100_sub_ratio (income expenses : ℚ) (h : income > 0) :
    savingsRateOf income expenses = 100 - expenseRatioOf income expenses := by
  unfold savingsRateOf expenseRatioOf
  rw [if_pos h, if_pos h]
  field_simp
  ring

theorem ratios_zero_of_no_income (income expenses : ℚ) (h : ¬ income > 0) :
    expenseRatioOf income expenses = 0 ∧ savingsRateOf income expenses = 0 := by
  unfold expenseRatioOf savingsRateOf
  rw [if_neg h, if_neg h]
  exact ⟨rfl, rfl⟩

/-- C1: `simulateScenario(s, p)` leaves every field of the engine state (and,
being a pure function of its deep copy, its input `s`) unchanged, its result
is a function of `(s, p)` alone, and re-running it after an interleaved
simulation of other inputs returns the identical result. -/
theorem simulateScenario_pure_and_frame (st : BotState) (s s2 : Ctx) (p p2 : Params) :
    (simulateScenarioS st s p).1 = st ∧
    (simulateScenarioS st s p).2 = simulateScenario s p ∧
    (simulateScenarioS ((simulateScenarioS ((simulateScenarioS st s p).1) s2 p2).1) s p).2
      = (simulateScenarioS st s p).2 :=
  ⟨rfl, rfl, rfl⟩

/-- C2: with zero income the Snapshot Builder derives a zero expense ratio
and zero savings rate, and whenever the Scenario Simulator recomputes the
savings rate over a zero simulated income it likewise produces zero — the
divisions by income are guarded in both places. -/
theorem income_zero_no_div (income expenses : ℚ) (s : Ctx) (p : Params) :
    (income = 0 → expenseRatioOf income expenses = 0 ∧ savingsRateOf income expenses = 0) ∧
    ((simulateScenario s p).income = 0 → (simulateScenario s p).savingsRate = 0) := by
  constructor
  · intro h
    exact ratios_zero_of_no_income income expenses (by rw [h]; exact lt_irrefl 0)
  · intro h
    have h1 : (simApplyDelta s p).income = 0 := h
    simp [simulateScenario, h1]

theorem income_zero_no_div_witness :
    expenseRatioOf 0 5 = 0 ∧ savingsRateOf 0 5 = 0 ∧
    (simulateScenario (mkUserContext 0 0 0 ⟨0, 0, 0, 0⟩)
        ⟨none, none, none, none, none⟩).savingsRate = 0 :=
  ⟨((income_zero_no_div 0 5 (mkUserContext 0 0 0 ⟨0, 0, 0, 0⟩)
      ⟨none, none, none, none, none⟩).1 rfl).1,
   ((income_zero_no_div 0 5 (mkUserContext 0 0 0 ⟨0, 0, 0, 0⟩)
      ⟨none, none, none, none, none⟩).1 rfl).2,
   (income_zero_no_div 0 5 (mkUserContext 0 0 0 ⟨0, 0, 0, 0⟩)
      ⟨none, none, none, none, none⟩).2 (by decide)⟩

/-- C3: the health classification of the Snapshot Builder agrees with the
precedence chain exactly as the specification states it, for every
income/expense pair: the extra `expenseRatio >= 70 || savingsRateNum < 10`
test in the source is exhaustive (its trailing Moderate else is
unreachable), so the chain collapses to "otherwise Needs Attention". -/
theorem health_classification_matches_spec (income expenses : ℚ) :
    financialHealthOf income expenses = specHealthClassification income expenses := by
  unfold financialHealthOf specHealthClassification
  split_ifs with h1 h2 h3 h4 h5 <;> try rfl
  exfalso
  push_neg at h4 h5
  by_cases hinc : income > 0
  · have hk := savingsRate_eq_100_sub_ratio income expenses hinc
    have h4a := h4 h5.1
    linarith [h5.1, h5.2]
  · have hz := ratios_zero_of_no_income income expenses hinc
    linarith [h5.2, hz.2]

/-- C4 counterexample: for income 100000 and expenses 60000 the expense
ratio is 60%, which fails the `< 50` test of the Healthy branch, so the
classification is "Moderate", not "Healthy" as the claim states. -/
theorem health_example_cex :
    financialHealthOf 100000 60000 = "Moderate" ∧
    financialHealthOf 100000 60000 ≠ "Healthy" := by
  have h : financialHealthOf 100000 60000 = "Moderate" := by
    norm_num [financialHealthOf, expenseRatioOf, savingsRateOf]
  exact ⟨h, by rw [h]; decide⟩

/-- C4 (amended): income 100000 / expenses 60000 classifies as "Moderate",
and income 100000 / expenses 120000 (overspending) classifies as
"Needs Attention". -/
theorem health_example_amended :
    financialHealthOf 100000 60000 = "Moderate" ∧
    financialHealthOf 100000 120000 = "Needs Attention" := by
  norm_num [financialHealthOf, expenseRatioOf, savingsRateOf]

theorem dropWhile_length_le (p : Char → Bool) (l : List Char) :
    (l.dropWhile p).length ≤ l.length := by
  induction l with
  | nil => simp
  | cons c cs ih =>
    simp only [List.dropWhile]
    cases h : p c
    · simp
    · simp only [List.length_cons]
      omega

theorem trimList_length_le (l : List Char) : (trimList l).length ≤ l.length := by
  unfold trimList
  calc ((l.dropWhile isWS).reverse.dropWhile isWS).reverse.length
      = ((l.dropWhile isWS).reverse.dropWhile isWS).length := List.length_reverse _
    _ ≤ (l.dropWhile isWS).reverse.length := dropWhile_length_le _ _
    _ = (l.dropWhile isWS).length := List.length_reverse _
    _ ≤ l.length := dropWhile_length_le _ _

theorem jsTruncate2000_length_le (l : List Char) : (jsTruncate2000 l).length ≤ 2003 := by
  unfold jsTruncate2000
  split
  · simp only [List.length_append, List.length_take, List.length_cons, List.length_nil]
    omega
  · omega

/-- C8: on the flagged input the safety pipeline yields exactly the softened,
redacted text — which contains no "must", no "guaranteed", and no longer
contains the investment phrase — and every output of `applyAISafetyFilters`
is capped at the 2000-character maximum (2003 with the appended ellipsis). -/
theorem safety_filter_flagged_input :
    applySafeResponseFramework "you must invest in crypto now, guaranteed returns"
      = "you may consider [consult with a financial advisor about investments"
    ∧ jsIncludes (jsToLower (applySafeResponseFramework
        "you must invest in crypto now, guaranteed returns")) "must" = false
    ∧ jsIncludes (jsToLower (applySafeResponseFramework
        "you must invest in crypto now, guaranteed returns")) "guaranteed" = false
    ∧ jsIncludes (jsToLower (applySafeResponseFramework
        "you must invest in crypto now, guaranteed returns")) "invest in crypto" = false
    ∧ ∀ r : String, (applyAISafetyFilters r).length ≤ 2003 := by
  refine ⟨by decide, by decide, by decide, by decide, ?_⟩
  intro r
  unfold applyAISafetyFilters
  split
  · decide
  · exact le_trans (trimList_length_le _) (jsTruncate2000_length_le _)

/-- C9: under the ordered first-match rules the goal-creation question maps
to `CREATE_GOAL` at confidence 0.9 (≥ 0.9), and a string matching no rule
maps to `GENERAL_ADVICE` at confidence exactly 0.5. -/
theorem intent_classification_examples :
    (detectIntent "Create a goal to save ₹50,000 in 6 months" ⟨none⟩).type = "CREATE_GOAL"
    ∧ (detectIntent "Create a goal to save ₹50,000 in 6 months" ⟨none⟩).confidence ≥ 9/10
    ∧ (detectIntent "xyzxyz" ⟨none⟩).type = "GENERAL_ADVICE"
    ∧ (detectIntent "xyzxyz" ⟨none⟩).confidence = 1/2 := by
  refine ⟨rfl, ?_, rfl, ?_⟩
  · have h : (detectIntent "Create a goal to save ₹50,000 in 6 months" ⟨none⟩).confidence
        = 0.9 := rfl
    rw [h]
    norm_num
  · have h : (detectIntent "xyzxyz" ⟨none⟩).confidence = 0.5 := rfl
    rw [h]
    norm_num

/-- C6 counterexample: `createFinancialGoal("x", 100, 3)` succeeds but stores
`monthlyRequirement = 33.33` (the quotient rounded by `toFixed(2)`), which is
not `targetAmount/durationMonths = 100/3`. -/
theorem createGoal_monthlyReq_rounded_cex :
    ((createFinancialGoal 0 "x" 100 3 []).1.map Goal.monthlyRequirement) = some (3333/100)
    ∧ ¬ ((3333 : ℚ)/100 = (100 : ℚ)/3) := by
  constructor
  · have hguard : ¬ (("x" : String) = "" ∨ (100 : ℚ) ≤ 0 ∨ (3 : ℚ) ≤ 0) := by
      push_neg
      exact ⟨by decide, by norm_num, by norm_num⟩
    unfold createFinancialGoal
    rw [if_neg hguard]
    show some (mkNewGoal 0 "x" 100 3).monthlyRequirement = some (3333/100)
    unfold mkNewGoal jsToFixed2
    norm_num
  · norm_num

/-- C6 (amended): a call with an empty name or a non-positive amount or
duration is rejected with the goal collection unchanged; a duplicate
active/behind name (trimmed, case-insensitive) is rejected with the
collection unchanged — in particular "Trip" then "trip" — and otherwise the
goal is stored with status `active` and `monthlyRequirement` equal to
`targetAmount/durationMonths` rounded to two decimals (`toFixed(2)`). -/
theorem createGoal_amended (now : ℕ) (name : String) (target duration : ℚ)
    (goals : List Goal) :
    ((name = "" ∨ target ≤ 0 ∨ duration ≤ 0) →
        createFinancialGoal now name target duration goals = (none, goals))
    ∧ ((goals.find? (goalDupPred (jsTrim name))).isSome →
        createFinancialGoal now name target duration goals = (none, goals))
    ∧ (name ≠ "" → 0 < target → 0 < duration →
        goals.find? (goalDupPred (jsTrim name)) = none →
        createFinancialGoal now name target duration goals
            = (some (mkNewGoal now name target duration),
               goals ++ [mkNewGoal now name target duration])
          ∧ (mkNewGoal now name target duration).monthlyRequirement
              = jsToFixed2 (target / duration)
          ∧ (mkNewGoal now name target duration).status = "active")
    ∧ (createFinancialGoal 2 "trip" 1 1 (createFinancialGoal 1 "Trip" 50000 5 []).2
        = (none, (createFinancialGoal 1 "Trip" 50000 5 []).2)
       ∧ (createFinancialGoal 1 "Trip" 50000 5 []).2 = [mkNewGoal 1 "Trip" 50000 5]) := by
  refine ⟨?_, ?_, ?_, ?_⟩
  · intro h
    unfold createFinancialGoal
    rw [if_pos h]
  · intro hdup
    unfold createFinancialGoal
    obtain ⟨g, hg⟩ := Option.isSome_iff_exists.mp hdup
    by_cases h : name = "" ∨ target ≤ 0 ∨ duration ≤ 0
    · rw [if_pos h]
    · rw [if_neg h, hg]
  · intro hn ht hd hdup
    have h : ¬ (name = "" ∨ target ≤ 0 ∨ duration ≤ 0) := by
      push_neg
      exact ⟨hn, ht, hd⟩
    refine ⟨?_, rfl, rfl⟩
    unfold createFinancialGoal
    rw [if_neg h, hdup]
  · have h1 : createFinancialGoal 1 "Trip" 50000 5 []
        = (some (mkNewGoal 1 "Trip" 50000 5), [mkNewGoal 1 "Trip" 50000 5]) := by
      have hguard : ¬ (("Trip" : String) = "" ∨ (50000 : ℚ) ≤ 0 ∨ (5 : ℚ) ≤ 0) := by
        push_neg
        exact ⟨by decide, by norm_num, by norm_num⟩
      unfold createFinancialGoal
      rw [if_neg hguard]
      rfl
    have h2 : createFinancialGoal 2 "trip" 1 1 [mkNewGoal 1 "Trip" 50000 5]
        = (none, [mkNewGoal 1 "Trip" 50000 5]) := by
      have hguard : ¬ (("trip" : String) = "" ∨ (1 : ℚ) ≤ 0 ∨ (1 : ℚ) ≤ 0) := by
        push_neg
        exact ⟨by decide, by norm_num, by norm_num⟩
      unfold createFinancialGoal
      rw [if_neg hguard]
      have hfind : [mkNewGoal 1 "Trip" 50000 5].find? (goalDupPred (jsTrim "trip"))
          = some (mkNewGoal 1 "Trip" 50000 5) := by
        rw [List.find?]
        have : goalDupPred (jsTrim "trip") (mkNewGoal 1 "Trip" 50000 5) = true := by decide
        rw [this]
      rw [hfind]
    rw [h1]
    exact ⟨h2, rfl⟩

theorem createGoal_amended_witness :
    createFinancialGoal 7 "Trip" 50000 5 []
      = (some (mkNewGoal 7 "Trip" 50000 5), [mkNewGoal 7 "Trip" 50000 5]) :=
  ((createGoal_amended 7 "Trip" 50000 5 []).2.2.1 (by decide) (by norm_num) (by norm_num)
    rfl).1

/-- C7 (code bug): on a context of the shape the Snapshot Builder actually
produces — `flexibleSpending` holding the numeric total, the per-category map
in `flexibleData` — a category-change scenario is silently a no-op: indexing
the numeric `flexibleSpending` yields `undefined`, the guarded delta block is
skipped, and the simulated expenses stay at 30000 instead of dropping to the
29000 the claim requires for a 1000-rupee Food & Dining decrease. -/
theorem simulate_category_delta_never_applied :
    (simulateScenario (mkUserContext 50000 30000 20000 ⟨5000, 3000, 2000, 0⟩)
        ⟨some "category_change", some 1000, none, some "decrease", some "Food & Dining"⟩).expenses
      = 30000
    ∧ (simulateScenario (mkUserContext 50000 30000 20000 ⟨5000, 3000, 2000, 0⟩)
        ⟨some "category_change", some 1000, none, some "decrease", some "Food & Dining"⟩).flexibleData
      = ⟨5000, 3000, 2000, 0⟩
    ∧ (simulateScenario (mkUserContext 50000 30000 20000 ⟨5000, 3000, 2000, 0⟩)
        ⟨some "category_change", some 1000, none, some "decrease", some "Food & Dining"⟩).flexibleSpending
      = .num 10000
    ∧ ¬ ((simulateScenario (mkUserContext 50000 30000 20000 ⟨5000, 3000, 2000, 0⟩)
        ⟨some "category_change", some 1000, none, some "decrease", some "Food & Dining"⟩).expenses
      = 29000) := by
  have hdelta : simApplyDelta (mkUserContext 50000 30000 20000 ⟨5000, 3000, 2000, 0⟩)
      ⟨some "category_change", some 1000, none, some "decrease", some "Food & Dining"⟩
      = mkUserContext 50000 30000 20000 ⟨5000, 3000, 2000, 0⟩ := by
    unfold simApplyDelta
    norm_num [categoryKeyOf, fvIndex, truthyQ, mkUserContext,
      show ("category_change" : String) = "income_change" ↔ False from by decide,
      show ("category_change" : String) = "expense_change" ↔ False from by decide]
  refine ⟨?_, ?_, ?_, ?_⟩ <;>
    simp only [simulateScenario, hdelta] <;>
    norm_num [mkUserContext, flexTotal]

theorem checkRateLimit_in_window (now : ℕ) (st : BotState) (h : now ≤ st.rateLimitReset) :
    checkRateLimit now st
      = if st.rateLimitCount ≥ 10 then (false, st)
        else (true, { st with rateLimitCount := st.rateLimitCount + 1 }) := by
  unfold checkRateLimit
  rw [if_neg (show ¬ now > st.rateLimitReset by omega)]

theorem checkRateLimit_after_reset (now : ℕ) (st : BotState) (h : now > st.rateLimitReset) :
    checkRateLimit now st
      = (true, { st with rateLimitCount := 1, rateLimitReset := now + 60000 }) := by
  unfold checkRateLimit
  rw [if_pos h, if_neg (by simp)]

theorem checkRateLimit_isProcessing (now : ℕ) (st : BotState) :
    (checkRateLimit now st).2.isProcessing = st.isProcessing := by
  simp only [checkRateLimit]
  split <;> split <;> rfl

theorem processMessage_step_window (t : ℕ) (msg resp : String) (c R : ℕ)
    (h : List (String × String)) (hm : jsTrim msg ≠ "") (ht : t ≤ R) :
    processMessage t msg true false resp ⟨false, c, R, h⟩
      = if c ≥ 10 then (⟨false, c, R, h⟩, Turn.throttled)
        else (⟨false, c + 1, R, pushHistory h (jsTrim msg) resp⟩, Turn.answered resp) := by
  unfold processMessage
  rw [if_neg hm, checkRateLimit_in_window t ⟨false, c, R, h⟩ ht]
  by_cases hc : c ≥ 10
  · rw [if_pos hc, if_pos hc]
    rfl
  · rw [if_neg hc, if_neg hc]
    rfl

theorem runMessages_window (msg resp : String) (R : ℕ) (hm : jsTrim msg ≠ "") :
    ∀ (ts : List ℕ) (c : ℕ) (h : List (String × String)),
      (∀ t ∈ ts, t ≤ R) → c ≤ 10 →
      (runMessages msg resp true false ts ⟨false, c, R, h⟩).2
          = List.replicate (min (10 - c) ts.length) (Turn.answered resp)
            ++ List.replicate (ts.length - (10 - c)) Turn.throttled
      ∧ ∃ h2, (runMessages msg resp true false ts ⟨false, c, R, h⟩).1
          = ⟨false, min 10 (c + ts.length), R, h2⟩ := by
  intro ts
  induction ts with
  | nil =>
    intro c h _ hc
    refine ⟨by simp [runMessages], ⟨h, ?_⟩⟩
    show (⟨false, c, R, h⟩ : BotState) = ⟨false, min 10 (c + 0), R, h⟩
    rw [show min 10 (c + 0) = c by omega]
  | cons t ts ih =>
    intro c h hin hc
    have hstep := processMessage_step_window t msg resp c R h hm (hin t (by simp))
    have hin2 : ∀ u ∈ ts, u ≤ R := fun u hu => hin u (by simp [hu])
    by_cases h10 : c ≥ 10
    · rw [if_pos h10] at hstep
      obtain ⟨o1, ⟨h2, o2⟩⟩ := ih c h hin2 hc
      simp only [runMessages, hstep, List.length_cons]
      constructor
      · rw [o1]
        rw [show 10 - c = 0 by omega]
        simp [List.replicate_succ]
      · exact ⟨h2, by rw [o2, show min 10 (c + ts.length) = min 10 (c + (ts.length + 1)) by omega]⟩
    · rw [if_neg h10] at hstep
      obtain ⟨o1, ⟨h2, o2⟩⟩ := ih (c + 1) (pushHistory h (jsTrim msg) resp) hin2 (by omega)
      simp only [runMessages, hstep, List.length_cons]
      constructor
      · rw [o1]
        rw [show min (10 - c) (ts.length + 1) = min (10 - (c + 1)) ts.length + 1 by omega,
            show ts.length + 1 - (10 - c) = ts.length - (10 - (c + 1)) by omega,
            List.replicate_succ]
        rfl
      · exact ⟨h2, by
          rw [o2, show min 10 (c + 1 + ts.length) = min 10 (c + (ts.length + 1)) by omega]⟩

theorem processMessage_throttled_noop (now : ℕ) (msg resp : String) (ctxOk bodyThrows : Bool)
    (st : BotState) (hm : jsTrim msg ≠ "") (hp : st.isProcessing = false)
    (hw : now ≤ st.rateLimitReset) (hc : st.rateLimitCount ≥ 10) :
    processMessage now msg ctxOk bodyThrows resp st = (st, Turn.throttled) := by
  unfold processMessage
  rw [if_neg hm, checkRateLimit_in_window now st hw, if_pos hc, hp]
  rfl

theorem processMessage_accept_after_reset (now : ℕ) (msg resp : String) (st : BotState)
    (hm : jsTrim msg ≠ "") (hp : st.isProcessing = false) (hw : now > st.rateLimitReset) :
    (processMessage now msg true false resp st).2 = Turn.answered resp := by
  unfold processMessage
  rw [if_neg hm, checkRateLimit_after_reset now st hw, hp]
  rfl

theorem filter_isAnswered_throttled (b : ℕ) :
    List.filter isAnswered (List.replicate b Turn.throttled) = [] := by
  induction b with
  | zero => rfl
  | succ n ih =>
    rw [List.replicate_succ, List.filter_cons,
        show isAnswered Turn.throttled = false from rfl, if_neg (by simp)]
    exact ih

theorem filter_isAnswered_answered (resp : String) (a : ℕ) :
    List.filter isAnswered (List.replicate a (Turn.answered resp))
      = List.replicate a (Turn.answered resp) := by
  induction a with
  | zero => rfl
  | succ n ih =>
    rw [List.replicate_succ, List.filter_cons,
        show isAnswered (Turn.answered resp) = true from rfl, if_pos rfl, ih]

theorem acceptedCount_replicate (resp : String) (a b : ℕ) :
    acceptedCount (List.replicate a (Turn.answered resp) ++ List.replicate b Turn.throttled)
      = a := by
  unfold acceptedCount
  rw [List.filter_append, filter_isAnswered_answered, filter_isAnswered_throttled,
      List.append_nil, List.length_replicate]

/-- C5: starting a fresh 60-second window, ten in-window `processMessage`
calls (idle session, non-empty input) are all answered; an eleventh in-window
call returns the throttling rejection and changes nothing at all; an eleventh
call after the window has lapsed is answered (the limiter resets lazily on
that check); and no run of in-window calls is ever answered more than ten
times. -/
theorem rate_limit_window_behaviour (R : ℕ) (msg resp : String) (ts : List ℕ) (t11 : ℕ)
    (hm : jsTrim msg ≠ "") (hlen : ts.length = 10) (hin : ∀ t ∈ ts, t ≤ R) :
    (runMessages msg resp true false ts ⟨false, 0, R, []⟩).2
        = List.replicate 10 (Turn.answered resp)
    ∧ (t11 ≤ R →
        processMessage t11 msg true false resp
            (runMessages msg resp true false ts ⟨false, 0, R, []⟩).1
          = ((runMessages msg resp true false ts ⟨false, 0, R, []⟩).1, Turn.throttled))
    ∧ (t11 > R →
        (processMessage t11 msg true false resp
            (runMessages msg resp true false ts ⟨false, 0, R, []⟩).1).2
          = Turn.answered resp)
    ∧ (∀ ts2 : List ℕ, (∀ t ∈ ts2, t ≤ R) →
        acceptedCount (runMessages msg resp true false ts2 ⟨false, 0, R, []⟩).2 ≤ 10) := by
  obtain ⟨o1, ⟨h2, o2⟩⟩ := runMessages_window msg resp R hm ts 0 [] hin (by omega)
  refine ⟨?_, ?_, ?_, ?_⟩
  · rw [o1, hlen]
    simp
  · intro hle
    exact processMessage_throttled_noop t11 msg resp true false _ hm
      (by rw [o2]) (by rw [o2]; simp [hlen]; omega) (by rw [o2]; simp [hlen])
  · intro hgt
    exact processMessage_accept_after_reset t11 msg resp _ hm
      (by rw [o2]) (by rw [o2]; exact hgt)
  · intro ts2 hin2
    obtain ⟨p1, _⟩ := runMessages_window msg resp R hm ts2 0 [] hin2 (by omega)
    rw [p1, acceptedCount_replicate]
    omega

theorem rate_limit_window_behaviour_witness :
    (runMessages "hi" "ok" true false [1, 2, 3, 4, 5, 6, 7, 8, 9, 10] ⟨false, 0, 100, []⟩).2
        = List.replicate 10 (Turn.answered "ok")
    ∧ (processMessage 101 "hi" true false "ok"
        (runMessages "hi" "ok" true false [1, 2, 3, 4, 5, 6, 7, 8, 9, 10]
          ⟨false, 0, 100, []⟩).1).2 = Turn.answered "ok" :=
  ⟨(rate_limit_window_behaviour 100 "hi" "ok" [1, 2, 3, 4, 5, 6, 7, 8, 9, 10] 101
      (by decide) rfl (by decide)).1,
   (rate_limit_window_behaviour 100 "hi" "ok" [1, 2, 3, 4, 5, 6, 7, 8, 9, 10] 101
      (by decide) rfl (by decide)).2.2.1 (by omega)⟩

/-- C10: a `processMessage` turn entered with the session idle always
resolves with `isProcessing` back to `false` — on empty input, on the
rate-limit rejection, on missing data, on a caught internal error, and on
normal completion alike (the `finally` clause clears the flag on every path
that set it). -/
theorem processing_flag_clear (now : ℕ) (msg : String) (ctxOk bodyThrows : Bool)
    (resp : String) (st : BotState) (h : st.isProcessing = false) :
    ((processMessage now msg ctxOk bodyThrows resp st).1).isProcessing = false := by
  unfold processMessage
  rw [h]
  split
  · exact h
  · have hck := checkRateLimit_isProcessing now st
    cases hcr : checkRateLimit now st with
    | mk ok st1 =>
      simp only [Bool.false_eq_true, if_false]
      split_ifs <;> simp_all

theorem processing_flag_clear_witness :
    ((processMessage 0 "hi" true false "ok" ⟨false, 0, 0, []⟩).1).isProcessing = false :=
  processing_flag_clear 0 "hi" true false "ok" ⟨false, 0, 0, []⟩ rfl

end FinanceClarity
